import Mathlib

/-!
Verification of the MindWhisper loopback-transcription workers
(`worker-script/python/loopback_transcribe.py`,
`worker-script/python/deepgram_transcribe.py`,
`worker-script/python/loopback_transcribe_deepgram_safe.py`).

Python float samples are modelled as exact rationals (`ℚ`) where the code is
pure arithmetic, and as reals (`ℝ`) where the FFT-based speech detector needs
complex magnitudes.  NumPy arrays become Lean lists; `int(...)` truncation of
non-negative quotients becomes `ℕ` floor division.
-/

namespace MindWhisper

/-- Target sample rate, `TARGET_SR = 16000` in every worker. -/
def TARGET_SR : ℕ := 16000

/-! ## Linear resampler (`resample_linear`, loopback_transcribe.py lines 217-226,
identical in deepgram_transcribe.py lines 214-224) -/

/-- One point of `np.interp`: `pts` is the sorted list of `(x, f(x))` pairs
(`zip(x_old, data)`); outside the range the boundary value is returned, inside
it is linear interpolation on the enclosing segment. -/
def interpPoint : List (ℚ × ℚ) → ℚ → ℚ
  | [], _ => 0
  | [(_, fy)], _ => fy
  | (x0, y0) :: (x1, y1) :: rest, x =>
    if x < x0 then y0
    else if x ≤ x1 then y0 + (y1 - y0) * (x - x0) / (x1 - x0)
    else interpPoint ((x1, y1) :: rest) x

/-- `resample_linear(data, src_sr, dst_sr)`:
```
if src_sr == dst_sr: return data
ratio = dst_sr / src_sr
dst_len = int(len(data) * ratio)
if dst_len <= 1 or len(data) <= 1: return np.zeros((dst_len,))
x_old = np.linspace(0, 1, num=len(data), endpoint=False)
x_new = np.linspace(0, 1, num=dst_len, endpoint=False)
return np.interp(x_new, x_old, data)
```
`int(len(data) * dst_sr / src_sr)` on non-negative operands is floor division
`len * dst / src`.  `linspace(0, 1, n, endpoint=False)[i] = i / n`. -/
def resample_linear (data : List ℚ) (src_sr dst_sr : ℕ) : List ℚ :=
  if src_sr = dst_sr then data
  else
    let dst_len := data.length * dst_sr / src_sr
    if dst_len ≤ 1 ∨ data.length ≤ 1 then List.replicate dst_len 0
    else
      let x_old := (List.range data.length).map fun i => (i : ℚ) / data.length
      let x_new := (List.range dst_len).map fun j => (j : ℚ) / dst_len
      x_new.map (interpPoint (x_old.zip data))

/-! ## Rolling segmentation buffer (loopback_transcribe.py `main`) -/

/-- `max_buffer_samples = int(TARGET_SR * 5.0)` (lines 505-506). -/
def max_buffer_samples : ℕ := TARGET_SR * 5

/-- One iteration of the capture loop's append-and-trim step (lines 529-534):
```
audio_buffer.extend(mono16k)
if len(audio_buffer) > max_buffer_samples:
    audio_buffer = audio_buffer[-max_buffer_samples:]
```
`buf[-k:]` with `0 < k ≤ len(buf)` keeps the last `k` elements. -/
def appendTrim (buf frame : List ℚ) : List ℚ :=
  let b := buf ++ frame
  if max_buffer_samples < b.length then b.drop (b.length - max_buffer_samples) else b

/-- `window_size = min(int(TARGET_SR * 3.0), len(audio_buffer))` (line 548). -/
def window_size (bufLen : ℕ) : ℕ := min (TARGET_SR * 3) bufLen

/-- `overlap_size = int(TARGET_SR * 0.5)` (line 549). -/
def overlap_size : ℕ := TARGET_SR / 2

/-- `remove_samples = window_size - overlap_size` (line 600).  On the speech
path the buffer already holds `process_samples = TARGET_SR` samples
(line 537), so `window_size ≥ TARGET_SR > overlap_size` and the Python `int`
subtraction is non-negative; `ℕ` subtraction agrees there. -/
def remove_samples (bufLen : ℕ) : ℕ := window_size bufLen - overlap_size

/-- The dispatched window, `process_audio = audio_buffer[-window_size:]`
(line 553). -/
def dispatchWindow (buf : List ℚ) : List ℚ :=
  buf.drop (buf.length - window_size buf.length)

/-- The post-dispatch front-truncation (lines 600-602):
```
remove_samples = window_size - overlap_size
if len(audio_buffer) > remove_samples:
    audio_buffer = audio_buffer[remove_samples:]
``` -/
def dispatchTrim (buf : List ℚ) : List ℚ :=
  if remove_samples buf.length < buf.length then buf.drop (remove_samples buf.length)
  else buf

/-! ## Final peak-normalization stage of the enhancer
(`enhance_audio_for_speech` step 9, loopback_transcribe.py lines 290-293). -/

/-- `np.max(np.abs(audio))` for the non-empty arrays reaching this stage;
`foldr max 0` agrees because every `|x|` is non-negative. -/
def peakVal (audio : List ℚ) : ℚ := (audio.map fun x => |x|).foldr max 0

/-- Step 9 of the enhancer:
```
max_val = np.max(np.abs(audio))
if max_val > 0:
    audio = audio / max_val * 0.85
```
`0.85 = 17/20`. -/
def finalNormalize (audio : List ℚ) : List ℚ :=
  if 0 < peakVal audio then audio.map fun x => x / peakVal audio * (17/20)
  else audio

/-! ## Theorems for the resampler, buffers, and enhancer -/

/-- C4: when the source sample rate equals the destination sample rate,
`resample_linear` returns the input samples unchanged (identity on sample
values; the channel downmix happens before this call). -/
theorem resample_identity_at_equal_rates (data : List ℚ) (r : ℕ) :
    resample_linear data r r = data := by
  simp [resample_linear]

/-- C3 counterexample: for the length-1 input `[1]` with equal source and
destination rates, `resample_linear` returns the input unchanged via its
equal-rate early return, not a zero-filled buffer of the computed destination
length `int(1 * 16000 / 16000) = 1`, so the claim fails as stated. -/
theorem resample_single_sample_equal_rates_not_zeroed :
    resample_linear [(1:ℚ)] 16000 16000 = [1] ∧
    resample_linear [(1:ℚ)] 16000 16000 ≠
      List.replicate ((List.length [(1:ℚ)]) * 16000 / 16000) 0 := by
  constructor
  · decide
  · decide

/-- C3 amended: for every input of length at most 1 and every pair of positive
rates with `src_sr ≠ dst_sr`, `resample_linear` returns a zero-filled buffer
of the computed destination length `int(len(data) * dst_sr / src_sr)`
(and, being a total function, never throws). -/
theorem resample_short_input_zero_filled (data : List ℚ) (src_sr dst_sr : ℕ)
    (hsrc : 0 < src_sr) (hne : src_sr ≠ dst_sr) (hlen : data.length ≤ 1) :
    resample_linear data src_sr dst_sr =
      List.replicate (data.length * dst_sr / src_sr) 0 := by
  have := hsrc
  simp [resample_linear, hne, hlen]

/-- Witness for C3 amended at the concrete input `[5]`, 16 kHz to 48 kHz. -/
theorem resample_short_input_zero_filled_witness :
    resample_linear [(5:ℚ)] 16000 48000 =
      List.replicate ((List.length [(5:ℚ)]) * 48000 / 16000) 0 :=
  resample_short_input_zero_filled [(5:ℚ)] 16000 48000 (by decide) (by decide) (by decide)

/-- Helper for C5: a single append-and-trim step always lands within the
configured maximum, whatever the incoming buffer and frame. -/
theorem appendTrim_length_le (buf frame : List ℚ) :
    (appendTrim buf frame).length ≤ max_buffer_samples := by
  unfold appendTrim
  dsimp only
  split
  · next h => simp only [List.length_drop]; omega
  · next h => omega

/-- C5: after each iteration of the capture loop's append-and-trim step, the
rolling audio buffer holds at most `max_buffer_samples` (5 seconds at 16 kHz)
samples, for any number of appended frames of any size, starting from any
buffer already within the bound (the loop starts from the empty buffer). -/
theorem buffer_never_exceeds_max (buf : List ℚ) (frames : List (List ℚ))
    (h : buf.length ≤ max_buffer_samples) :
    (frames.foldl appendTrim buf).length ≤ max_buffer_samples := by
  induction frames generalizing buf with
  | nil => simpa using h
  | cons f fs ih => exact ih _ (appendTrim_length_le buf f)

/-- Witness for C5 at the empty initial buffer and one concrete frame. -/
theorem buffer_never_exceeds_max_witness :
    (([[(1:ℚ), 2, 3]] : List (List ℚ)).foldl appendTrim []).length ≤ max_buffer_samples :=
  buffer_never_exceeds_max [] [[(1:ℚ), 2, 3]] (by decide)

/-- C6: after a speech-window dispatch (possible only when the buffer holds at
least `process_samples = TARGET_SR` samples, and the buffer is bounded by
`max_buffer_samples` by the append-and-trim step), the front-truncation
removes exactly `window_size - overlap_size` samples, and the retained tail
has length `len - remove_samples` (in particular ≥ 0), is strictly shorter
than the dispatched window, and is a suffix of the dispatched window. -/
theorem dispatch_overlap_invariant (buf : List ℚ)
    (h1 : TARGET_SR ≤ buf.length) (h2 : buf.length ≤ max_buffer_samples) :
    remove_samples buf.length = window_size buf.length - overlap_size ∧
    (dispatchTrim buf).length = buf.length - remove_samples buf.length ∧
    (dispatchTrim buf).length < window_size buf.length ∧
    List.IsSuffix (dispatchTrim buf) (dispatchWindow buf) := by
  have hr : remove_samples buf.length < buf.length := by
    simp only [remove_samples, window_size, overlap_size, TARGET_SR,
      max_buffer_samples] at h1 h2 ⊢
    omega
  have hdt : dispatchTrim buf = buf.drop (remove_samples buf.length) := by
    rw [dispatchTrim, if_pos hr]
  refine ⟨rfl, ?_, ?_, ?_⟩
  · rw [hdt, List.length_drop]
  · rw [hdt, List.length_drop]
    simp only [remove_samples, window_size, overlap_size, TARGET_SR,
      max_buffer_samples] at h1 h2 ⊢
    omega
  · have harg : buf.length - window_size buf.length +
        (remove_samples buf.length - (buf.length - window_size buf.length)) =
        remove_samples buf.length := by
      simp only [remove_samples, window_size, overlap_size, TARGET_SR,
        max_buffer_samples] at h1 h2 ⊢
      omega
    have heq : dispatchTrim buf =
        (dispatchWindow buf).drop
          (remove_samples buf.length - (buf.length - window_size buf.length)) := by
      rw [hdt, dispatchWindow, List.drop_drop, harg]
    rw [heq]
    exact List.drop_suffix _ _

/-- Witness for C6 at a concrete 16000-sample buffer. -/
theorem dispatch_overlap_invariant_witness :
    (dispatchTrim (List.replicate 16000 (0:ℚ))).length <
      window_size (List.replicate 16000 (0:ℚ)).length :=
  (dispatch_overlap_invariant (List.replicate 16000 (0:ℚ))
    (by rw [List.length_replicate]; decide)
    (by rw [List.length_replicate]; decide)).2.2.1

/-- Helper for C8: scaling every sample by `k` scales the peak by `|k|`. -/
theorem peakVal_map_mul (l : List ℚ) (k : ℚ) :
    peakVal (l.map fun x => x * k) = peakVal l * |k| := by
  induction l with
  | nil => simp [peakVal]
  | cons a l ih =>
    have h1 : peakVal ((a :: l).map fun x => x * k)
        = max |a * k| (peakVal (l.map fun x => x * k)) := rfl
    have h2 : peakVal (a :: l) = max |a| (peakVal l) := rfl
    rw [h1, h2, ih, abs_mul, max_mul_of_nonneg _ _ (abs_nonneg k)]

/-- Helper for C8: the final normalization stage drives a nonzero peak to
exactly the 0.85 headroom target. -/
theorem peakVal_finalNormalize (l : List ℚ) (h : 0 < peakVal l) :
    peakVal (finalNormalize l) = 17/20 := by
  rw [finalNormalize, if_pos h]
  have heq : (fun x => x / peakVal l * (17/20)) = fun x => x * (17/20 / peakVal l) := by
    funext x
    rw [div_mul_eq_mul_div, mul_div_assoc]
  rw [heq, peakVal_map_mul, abs_of_pos (by positivity), mul_comm,
    div_mul_cancel₀ _ h.ne']

/-- C8: for every signal with nonzero peak, applying the enhancer's final
peak-normalization stage (scale so the peak equals the 0.85 headroom target)
twice yields the same peak amplitude as applying it once; in exact rational
arithmetic the peaks agree exactly (both are 17/20). -/
theorem final_normalize_peak_idempotent (audio : List ℚ) (h : 0 < peakVal audio) :
    peakVal (finalNormalize (finalNormalize audio)) = peakVal (finalNormalize audio) := by
  have h1 := peakVal_finalNormalize audio h
  have h2 : 0 < peakVal (finalNormalize audio) := by rw [h1]; norm_num
  rw [peakVal_finalNormalize _ h2, h1]

/-- Witness for C8 at the concrete one-sample signal `[1]`. -/
theorem final_normalize_peak_idempotent_witness :
    0 < peakVal [(1:ℚ)] ∧
    peakVal (finalNormalize (finalNormalize [(1:ℚ)])) =
      peakVal (finalNormalize [(1:ℚ)]) := by
  have hp : peakVal [(1:ℚ)] = 1 := by
    show max |(1:ℚ)| 0 = 1
    rw [abs_one, max_eq_left zero_le_one]
  exact ⟨by rw [hp]; norm_num,
    final_normalize_peak_idempotent [(1:ℚ)] (by rw [hp]; norm_num)⟩

/-! ## Speech activity detector (`detect_speech_activity`,
loopback_transcribe.py lines 304-335).  Real-valued samples; the FFT is the
exact discrete Fourier transform. -/

/-- `energy = np.mean(audio ** 2)` (line 312). -/
noncomputable def energy (audio : List ℝ) : ℝ :=
  ((audio.map fun x => x ^ 2).sum) / audio.length

open Classical in
/-- `np.sign`: 1 for positive, -1 for negative, 0 at zero. -/
noncomputable def npSign (x : ℝ) : ℝ :=
  if 0 < x then 1 else if x < 0 then -1 else 0

/-- `zero_crossings = np.sum(np.abs(np.diff(np.sign(audio)))) / (2 * len(audio))`
(line 315); `np.diff(s)[i] = s[i+1] - s[i]`. -/
noncomputable def zero_crossings (audio : List ℝ) : ℝ :=
  ((audio.zip audio.tail).map fun p => |npSign p.2 - npSign p.1|).sum /
    (2 * audio.length)

/-- Coefficient `k` of `np.fft.fft(audio)`:
`F_k = sum_j audio[j] * exp(-2*pi*i*k*j/n)`. -/
noncomputable def dft (audio : List ℝ) (k : ℕ) : ℂ :=
  ∑ j ∈ Finset.range audio.length,
    ((audio.getD j 0 : ℝ) : ℂ) *
      Complex.exp (-(2 * Real.pi * Complex.I) * k * j / audio.length)

/-- `np.abs(np.fft.fft(audio))[k]`, the magnitude spectrum (line 318). -/
noncomputable def dftMag (audio : List ℝ) (k : ℕ) : ℝ := Complex.abs (dft audio k)

/-- `fft_sum = np.sum(fft[:len(fft)//2])` (line 320), the half-spectrum
magnitude sum. -/
noncomputable def fftHalfSum (audio : List ℝ) : ℝ :=
  ∑ k ∈ Finset.range (audio.length / 2), dftMag audio k

open Classical in
/-- Lines 319-324: `freqs = np.fft.fftfreq(len(audio), 1/sample_rate)` gives
`freqs[k] = k * sample_rate / n` for every `k < n // 2` (both parities of
`n`), and
```
if fft_sum > 0:
    spectral_centroid = np.sum(freqs[:len(freqs)//2] * fft[:len(fft)//2]) / fft_sum
else:
    spectral_centroid = 0
``` -/
noncomputable def spectral_centroid (audio : List ℝ) (sample_rate : ℕ) : ℝ :=
  if 0 < fftHalfSum audio then
    (∑ k ∈ Finset.range (audio.length / 2),
      ((k : ℝ) * sample_rate / audio.length) * dftMag audio k) / fftHalfSum audio
  else 0

open Classical in
/-- `detect_speech_activity(audio, sample_rate)` (lines 304-335): empty input
returns `False`; otherwise
`has_energy and (has_speech_zcr or has_speech_spectrum)` with
`energy > 0.001`, `0.01 < zero_crossings < 0.3`,
`200 < spectral_centroid < 4000`. -/
noncomputable def detect_speech_activity (audio : List ℝ) (sample_rate : ℕ) : Bool :=
  if audio.length = 0 then false
  else if energy audio > 0.001 ∧
      ((0.01 < zero_crossings audio ∧ zero_crossings audio < 0.3) ∨
       (200 < spectral_centroid audio sample_rate ∧
        spectral_centroid audio sample_rate < 4000)) then true
  else false

/-- C2: for every audio window and sample rate, `detect_speech_activity`
returns `True` if and only if the mean-square energy exceeds 0.001 and (the
zero-crossing rate lies strictly between 0.01 and 0.3 or the spectral
centroid lies strictly between 200 Hz and 4000 Hz, computed as the
magnitude-FFT weighted mean); in particular every all-zero window yields
`False` because the energy term fails. -/
theorem detect_speech_iff :
    (∀ (audio : List ℝ) (sample_rate : ℕ),
      detect_speech_activity audio sample_rate = true ↔
        (energy audio > 0.001 ∧
          ((0.01 < zero_crossings audio ∧ zero_crossings audio < 0.3) ∨
           (200 < spectral_centroid audio sample_rate ∧
            spectral_centroid audio sample_rate < 4000)))) ∧
    (∀ (n sample_rate : ℕ),
      detect_speech_activity (List.replicate n 0) sample_rate = false) := by
  have hiff : ∀ (audio : List ℝ) (sample_rate : ℕ),
      detect_speech_activity audio sample_rate = true ↔
        (energy audio > 0.001 ∧
          ((0.01 < zero_crossings audio ∧ zero_crossings audio < 0.3) ∨
           (200 < spectral_centroid audio sample_rate ∧
            spectral_centroid audio sample_rate < 4000))) := by
    intro audio sample_rate
    unfold detect_speech_activity
    by_cases h0 : audio.length = 0
    · rw [if_pos h0]
      simp only [Bool.false_eq_true, false_iff]
      rintro ⟨he, -⟩
      rw [List.length_eq_zero.mp h0] at he
      simp only [energy, List.map_nil, List.sum_nil, List.length_nil,
        Nat.cast_zero, zero_div, gt_iff_lt] at he
      norm_num at he
    · rw [if_neg h0]
      by_cases hP : energy audio > 0.001 ∧
          ((0.01 < zero_crossings audio ∧ zero_crossings audio < 0.3) ∨
           (200 < spectral_centroid audio sample_rate ∧
            spectral_centroid audio sample_rate < 4000))
      · simp [hP]
      · simp [hP]
  refine ⟨hiff, fun n sample_rate => ?_⟩
  have hE : energy (List.replicate n (0:ℝ)) = 0 := by
    simp [energy]
  by_contra hFalse
  have htrue : detect_speech_activity (List.replicate n 0) sample_rate = true := by
    revert hFalse
    cases detect_speech_activity (List.replicate n 0) sample_rate <;> simp
  have := (hiff (List.replicate n 0) sample_rate).mp htrue
  rw [hE] at this
  have h1 := this.1
  norm_num at h1

/-- Helper for C7: every DFT coefficient of the all-zero signal is zero. -/
theorem dft_replicate_zero (n k : ℕ) : dft (List.replicate n (0:ℝ)) k = 0 := by
  unfold dft
  refine Finset.sum_eq_zero fun j hj => ?_
  have hz : (List.replicate n (0:ℝ)).getD j 0 = 0 := by
    rcases Nat.lt_or_ge j n with h | h
    · simp [List.getD_eq_getElem?_getD, List.getElem?_replicate, h]
    · simp [List.getD_eq_getElem?_getD, List.getElem?_replicate, Nat.not_lt.mpr h]
  rw [hz]
  simp

/-- Helper for C7: the half-spectrum magnitude sum of the all-zero signal is
zero. -/
theorem fftHalfSum_replicate_zero (n : ℕ) :
    fftHalfSum (List.replicate n (0:ℝ)) = 0 := by
  unfold fftHalfSum dftMag
  refine Finset.sum_eq_zero fun k _ => ?_
  rw [dft_replicate_zero]
  simp

/-- C7: whenever the half-spectrum magnitude sum is zero, the spectral
centroid is defined as 0 rather than a division by zero (the division branch
requires a strictly positive magnitude sum), and the all-zero signal is such
a case. -/
theorem spectral_centroid_zero_guard :
    (∀ (audio : List ℝ) (sample_rate : ℕ), fftHalfSum audio = 0 →
      spectral_centroid audio sample_rate = 0) ∧
    (∀ (n sample_rate : ℕ),
      spectral_centroid (List.replicate n (0:ℝ)) sample_rate = 0) := by
  have hmain : ∀ (audio : List ℝ) (sample_rate : ℕ), fftHalfSum audio = 0 →
      spectral_centroid audio sample_rate = 0 := by
    intro audio sample_rate h
    rw [spectral_centroid, if_neg (by rw [h]; exact lt_irrefl 0)]
  exact ⟨hmain, fun n sample_rate =>
    hmain _ sample_rate (fftHalfSum_replicate_zero n)⟩

/-- Witness for C7 at the concrete empty window. -/
theorem spectral_centroid_zero_guard_witness :
    spectral_centroid [] 16000 = 0 :=
  spectral_centroid_zero_guard.1 [] 16000 (by simp [fftHalfSum])

/-! ## Event protocol (JSON records printed to stdout).  A record is an
association list from keys to JSON values. -/

/-- A JSON value: string, number, or array. -/
inductive JVal where
  | s (v : String)
  | n (v : ℚ)
  | l (v : List JVal)

/-- The looked-up field exists and is a JSON string. -/
def isStrField : Option JVal → Bool
  | some (JVal.s _) => true
  | _ => false

/-- The looked-up field exists and is a JSON number. -/
def isNumField : Option JVal → Bool
  | some (JVal.n _) => true
  | _ => false

/-- The looked-up field exists and is a JSON array. -/
def isListField : Option JVal → Bool
  | some (JVal.l _) => true
  | _ => false

/-- The looked-up field is the string "transcription". -/
def isTranscriptionType : Option JVal → Bool
  | some (JVal.s t) => t == "transcription"
  | _ => false

/-- The spec's required transcription-event shape (spec section 6):
`{"type":"transcription", "id": <string>, "text": <string>,
"confidence": <float>, optional "words": [...]}`.  This definition follows
the spec's words, to be compared against the records the workers build. -/
def specTranscriptionShape (r : List (String × JVal)) : Bool :=
  isTranscriptionType (r.lookup "type") && isStrField (r.lookup "id") &&
    isStrField (r.lookup "text") && isNumField (r.lookup "confidence")

/-- The record printed by `transcription_log` in deepgram_transcribe.py
(lines 169-177): type, id = `str(int(time.time() * 1000))`, text,
confidence. -/
def transcription_log (id text : String) (confidence : ℚ) : List (String × JVal) :=
  [("type", JVal.s "transcription"), ("id", JVal.s id),
   ("text", JVal.s text), ("confidence", JVal.n confidence)]

/-- The record printed by the loopback worker's main loop
(loopback_transcribe.py lines 582-588): type, id, text, words,
confidence. -/
def loopbackTranscriptionEvent (id text : String) (words : List JVal)
    (confidence : ℚ) : List (String × JVal) :=
  [("type", JVal.s "transcription"), ("id", JVal.s id), ("text", JVal.s text),
   ("words", JVal.l words), ("confidence", JVal.n confidence)]

/-- The record printed by the deepgram-safe worker's main loop
(loopback_transcribe_deepgram_safe.py lines 288-294): type, text, and a
`timestamp` - it carries no "id" and no "confidence" field. -/
def safeTranscriptionEvent (text : String) (timestamp : ℚ) :
    List (String × JVal) :=
  [("type", JVal.s "transcription"), ("text", JVal.s text),
   ("timestamp", JVal.n timestamp)]

/-- C9 counterexample: the transcription record emitted by
loopback_transcribe_deepgram_safe.py at a concrete input has no "id" and no
"confidence" field, so the claim that every worker's transcription event
carries both fails as stated. -/
theorem safe_event_missing_id_and_confidence :
    (safeTranscriptionEvent "hello" 1700000000).lookup "id" = none ∧
    (safeTranscriptionEvent "hello" 1700000000).lookup "confidence" = none ∧
    specTranscriptionShape (safeTranscriptionEvent "hello" 1700000000) = false :=
  ⟨rfl, rfl, rfl⟩

/-- C9 amended: the transcription events of the loopback worker and of the
deepgram worker are single JSON records with "type":"transcription", a
string "id", a string "text" and a numeric "confidence" ("words" present
only in the loopback record), but the deepgram-safe worker's transcription
event carries only "type", "text" and "timestamp", never "id" or
"confidence". -/
theorem transcription_events_shape (id text : String) (words : List JVal)
    (confidence timestamp : ℚ) :
    specTranscriptionShape (transcription_log id text confidence) = true ∧
    specTranscriptionShape (loopbackTranscriptionEvent id text words confidence) = true ∧
    specTranscriptionShape (safeTranscriptionEvent text timestamp) = false :=
  ⟨rfl, rfl, rfl⟩

/-! ## transcribe_wav_base64 (loopback_transcribe.py lines 351-443).
The fallible external steps - `base64.b64decode` + `np.frombuffer` (decode
to int16 samples), the SciPy/noisereduce enhancement chain, and the Whisper
engine call - are oracles that either return a value or raise; the
function's own control flow (the single `try/except Exception` and the
result-dict construction of the faster-whisper branch) is modelled
exactly. -/

/-- Outcome of a fallible Python step: a value, or a raised exception's
text. -/
inductive PyResult (α : Type) where
  | ok (a : α)
  | exn (msg : String)

/-- The `except Exception as e` fallback of line 443:
`{"text": "", "words": [], "error": str(e)}`. -/
def exceptResult (e : String) : List (String × JVal) :=
  [("text", JVal.s ""), ("words", JVal.l []), ("error", JVal.s e)]

/-- Line 359: `audio_float = audio_int16.astype(np.float32) / 32768.0`. -/
def int16ToFloat (audio_int16 : List ℤ) : List ℚ :=
  audio_int16.map fun v => (v : ℚ) / 32768

/-- `transcribe_wav_base64` with its three fallible steps as oracles: any
step's exception is caught and becomes the error dict; on success the
result dict is built from the engine output, with
`"text" = " ".join(text_segments).strip()` (line 401). -/
def transcribe_wav_base64
    (decode : PyResult (List ℤ))
    (enhance : List ℚ → PyResult (List ℚ))
    (engine : List ℚ → PyResult (List String × List JVal × String × ℚ)) :
    List (String × JVal) :=
  match decode with
  | .exn e => exceptResult e
  | .ok audio_int16 =>
    match enhance (int16ToFloat audio_int16) with
    | .exn e => exceptResult e
    | .ok audio_enhanced =>
      match engine audio_enhanced with
      | .exn e => exceptResult e
      | .ok (segs, words, lang, prob) =>
        [("text", JVal.s (String.intercalate " " segs).trim),
         ("words", JVal.l words),
         ("language", JVal.s lang),
         ("language_probability", JVal.n prob)]

/-- The first exception raised inside the `try` block, if any, following
the same step order as `transcribe_wav_base64`. -/
def pipelineError
    (decode : PyResult (List ℤ))
    (enhance : List ℚ → PyResult (List ℚ))
    (engine : List ℚ → PyResult (List String × List JVal × String × ℚ)) :
    Option String :=
  match decode with
  | .exn e => some e
  | .ok audio_int16 =>
    match enhance (int16ToFloat audio_int16) with
    | .exn e => some e
    | .ok audio_enhanced =>
      match engine audio_enhanced with
      | .exn e => some e
      | .ok _ => none

/-- C10: for every input and every behaviour of the fallible steps,
`transcribe_wav_base64` returns a well-formed result dict - it always has a
string "text" and an array "words" - and whenever any internal step raises,
the result is exactly `{"text": "", "words": [], "error": <exception
text>}`; the surrounding `try/except` makes the function total. -/
theorem transcribe_wav_base64_total_error_shape
    (decode : PyResult (List ℤ))
    (enhance : List ℚ → PyResult (List ℚ))
    (engine : List ℚ → PyResult (List String × List JVal × String × ℚ)) :
    isStrField ((transcribe_wav_base64 decode enhance engine).lookup "text") = true ∧
    isListField ((transcribe_wav_base64 decode enhance engine).lookup "words") = true ∧
    ∀ e, pipelineError decode enhance engine = some e →
      transcribe_wav_base64 decode enhance engine = exceptResult e := by
  unfold transcribe_wav_base64 pipelineError
  rcases decode with a | e
  · dsimp only
    rcases h1 : enhance (int16ToFloat a) with b | e1
    · dsimp only
      rcases h2 : engine b with c | e2
      · obtain ⟨segs, words, lang, prob⟩ := c
        exact ⟨rfl, rfl, fun e h => by cases h⟩
      · exact ⟨rfl, rfl, fun e h => by cases h; rfl⟩
    · exact ⟨rfl, rfl, fun e h => by cases h; rfl⟩
  · exact ⟨rfl, rfl, fun e' h => by cases h; rfl⟩

/-- Witness for C10 at a concrete failing decode step. -/
theorem transcribe_wav_base64_total_error_shape_witness :
    transcribe_wav_base64 (.exn "Invalid base64-encoded string")
        (fun _ => .ok []) (fun _ => .ok ([], [], "en", 0)) =
      exceptResult "Invalid base64-encoded string" :=
  (transcribe_wav_base64_total_error_shape (.exn "Invalid base64-encoded string")
    (fun _ => .ok []) (fun _ => .ok ([], [], "en", 0))).2.2 _ rfl

/-! ## Keepalive vs. first real-audio send (deepgram_transcribe.py).

`keepalive_loop` (lines 179-212) runs
`while not audio_streaming_started.is_set(): ... connection.send_media(silence) ...`,
and `audio_capture_and_stream` (lines 442-490) runs
`connection.send_media(pcm_data)` followed by
`if not audio_streaming_started.is_set(): audio_streaming_started.set()`.
The two threads are modelled as an interleaved transition system whose
atomic actions are exactly the keepalive's flag check and its send, and the
audio thread's send and its flag set; `trace` records the `send_media`
calls, most recent first. -/

/-- A `send_media` call: keepalive silence or real audio. -/
inductive SendEv where
  | keepalive
  | realAudio

/-- Program counter of the keepalive thread: about to check the one-shot
event, about to send silence (check already passed), or exited. -/
inductive KeepalivePc where
  | check
  | send
  | stopped

/-- Program counter of the audio thread inside its send loop: about to call
`send_media`, or about to set the one-shot event just after a send. -/
inductive AudioPc where
  | sendChunk
  | mark

/-- Shared state: the `audio_streaming_started` event, both program
counters, and the wire trace. -/
structure StreamState where
  flag : Bool
  kpc : KeepalivePc
  apc : AudioPc
  trace : List SendEv

/-- Both threads started, event not yet set, nothing sent. -/
def initStream : StreamState :=
  { flag := false, kpc := .check, apc := .sendChunk, trace := [] }

/-- One atomic step of either thread.  `kCheckStop`/`kCheckPass` is the
keepalive's `is_set()` check, `kSend` its silence `send_media`, `aSend` the
audio thread's real `send_media`, and `aMark` the subsequent
`audio_streaming_started.set()`. -/
inductive StreamStep : StreamState → StreamState → Prop where
  | kCheckStop (s : StreamState) (h : s.kpc = .check) (hf : s.flag = true) :
      StreamStep s { s with kpc := .stopped }
  | kCheckPass (s : StreamState) (h : s.kpc = .check) (hf : s.flag = false) :
      StreamStep s { s with kpc := .send }
  | kSend (s : StreamState) (h : s.kpc = .send) :
      StreamStep s { s with kpc := .check, trace := .keepalive :: s.trace }
  | aSend (s : StreamState) (h : s.apc = .sendChunk) :
      StreamStep s { s with apc := .mark, trace := .realAudio :: s.trace }
  | aMark (s : StreamState) (h : s.apc = .mark) :
      StreamStep s { s with apc := .sendChunk, flag := true }

/-- States reachable from `initStream` by interleaved execution. -/
inductive StreamReachable : StreamState → Prop where
  | init : StreamReachable initStream
  | step {s t : StreamState} :
      StreamReachable s → StreamStep s t → StreamReachable t

/-- C1: the code admits a schedule in which a keepalive silence send is
performed after the first real-audio send and after the
`audio_streaming_started` one-shot event is already set: the keepalive
thread passes its `is_set()` check while the event is unset, the audio
thread then performs its first `send_media` and sets the event, and the
keepalive thread completes its pending silence `send_media`.  The check and
the send are not atomic, and the event is set only after the first real
send, so the claimed strict ordering fails on the code. -/
theorem keepalive_send_after_streaming_started :
    ∃ s t : StreamState, StreamReachable s ∧ StreamStep s t ∧
      s.flag = true ∧ s.trace = [SendEv.realAudio] ∧
      t.trace = [SendEv.keepalive, SendEv.realAudio] := by
  refine ⟨{ flag := true, kpc := .send, apc := .sendChunk,
            trace := [SendEv.realAudio] },
          { flag := true, kpc := .check, apc := .sendChunk,
            trace := [SendEv.keepalive, SendEv.realAudio] },
          ?_, ?_, rfl, rfl, rfl⟩
  · have h0 := StreamReachable.init
    have h1 := StreamReachable.step h0 (StreamStep.kCheckPass initStream rfl rfl)
    have h2 := StreamReachable.step h1 (StreamStep.aSend _ rfl)
    have h3 := StreamReachable.step h2 (StreamStep.aMark _ rfl)
    exact h3
  · exact StreamStep.kSend _ rfl

end MindWhisper
